import Mathlib

/-!
Shallow embedding of `src/ddw.py` (popos-daily-wallpaper), a single-shot CLI
utility that fetches a daily wallpaper from one of several sources, caches it
in a flat storage directory, applies it through a desktop configuration
service, and deletes old cached files by age.

Modelling conventions:
  * machine state (`St`) records the flat cache (full path ↦ file content),
    the set of existing directories, and the ordered log of HTTP GETs issued;
  * the network is a function from URL to `Response` (the requests library);
  * the HTML/XML parse capability (BeautifulSoup) is an abstract function
    from a document body to the selector results the adapters read (`Doc`);
  * raised RuntimeErrors are `Except.error` values of the structured `Err`
    type (the message template of each error kind is fixed in the source);
  * string manipulation from the Python standard library (urlparse basename
    join rstrip replace rfind slicing) is re-implemented on `List Char`,
    following the CPython implementations.
-/

set_option maxRecDepth 10000

/-- HTTP response as the program observes it through the requests library. -/
structure Response where
  status_code : Nat
  content : String
deriving DecidableEq

/-- The network: what an HTTP GET of each URL returns (requests.get). -/
abbrev Net := String → Response

/-- Observable machine state: cached files (full path ↦ content), existing
directories, and the ordered log of URLs fetched over the network. -/
structure St where
  files : List (String × String)
  dirs : List String
  log : List String
deriving DecidableEq

/-- Error kinds raised by the program. `downloadError s` stands for
RuntimeError with message s followed by " error downloading image",
`fetchError s` for s followed by " error fetching IoD", `imageNotFound` for
RuntimeError "Image not found", and `typeError` for the TypeError Python
raises when subscripting None (natgeo, missing canonical link). -/
inductive Err where
  | downloadError (status : Nat)
  | fetchError (status : Nat)
  | imageNotFound
  | typeError
deriving DecidableEq

/-- One word character of Python's re module, ASCII view: letter, digit or
underscore. -/
def wordChar (c : Char) : Bool := c.isAlphanum || c = '_'

/-- Characters urllib.parse allows inside a URL scheme. -/
def schemeChar (c : Char) : Bool := c.isAlphanum || c = '+' || c = '-' || c = '.'

/-- Split a character list at the first ':' into (before, after), when one
is present. -/
def splitColon : List Char → Option (List Char × List Char)
  | [] => none
  | c :: cs =>
    if c = ':' then some ([], cs)
    else
      match splitColon cs with
      | none => none
      | some (a, b) => some (c :: a, b)

/-- Split off a leading "scheme:" as urllib.parse.urlsplit does: the text
before the first ':' must be nonempty, start with a letter and consist of
scheme characters only; the scheme is lowercased. Returns the scheme (empty
when there is none) and the remainder. -/
def schemeSplit (cs : List Char) : List Char × List Char :=
  match splitColon cs with
  | none => ([], cs)
  | some ([], _) => ([], cs)
  | some (c0 :: rest, after) =>
    if c0.isAlpha && (c0 :: rest).all schemeChar then ((c0 :: rest).map Char.toLower, after)
    else ([], cs)

/-- Drop a leading "//netloc" as urlsplit does: after "//", the authority
extends to the next '/', '?' or '#' (which stays in the remainder). -/
def dropNetloc (cs : List Char) : List Char :=
  match cs with
  | '/' :: '/' :: rest => rest.dropWhile (fun c => !(c = '/' || c = '?' || c = '#'))
  | cs => cs

/-- Index of the last '/' in a character list, when present. -/
def rfindSlash : List Char → Option Nat
  | [] => none
  | c :: cs =>
    match rfindSlash cs with
    | some i => some (i + 1)
    | none => if c = '/' then some 0 else none

/-- Index of the first ';' in a character list, when present. -/
def firstSemi : List Char → Option Nat
  | [] => none
  | c :: cs => if c = ';' then some 0 else (firstSemi cs).map (fun i => i + 1)

/-- Schemes for which urllib.parse.urlparse splits ";params" off the path
(uses_params in CPython's urllib/parse.py); the empty scheme is included. -/
def uses_params : List (List Char) :=
  (["", "ftp", "hdl", "prospero", "http", "imap", "https", "shttp", "rtsp",
    "rtspu", "sip", "sips", "mms", "sftp", "tel"]).map String.data

/-- CPython's urllib.parse._splitparams on the path: when the path contains
a '/', the params start at the first ';' at or after the last '/' (no such
';' leaves the path whole); otherwise at the first ';' if any. -/
def dropParams (path : List Char) : List Char :=
  match rfindSlash path with
  | some r =>
    match firstSemi (path.drop r) with
    | some j => path.take (r + j)
    | none => path
  | none =>
    match firstSemi path with
    | some i => path.take i
    | none => path

/-- Path component of urllib.parse.urlparse(uri): urlsplit's path — strip
scheme and netloc, then keep what precedes the first '#' (fragment) and the
first '?' (query) — and then, when the scheme uses parameters (the empty
scheme included), strip the ";params" suffix of the last path segment,
which urlparse performs on top of urlsplit. -/
def urlPathChars (cs : List Char) : List Char :=
  let sp := schemeSplit cs
  let p := ((dropNetloc sp.2).takeWhile (fun c => c != '#')).takeWhile (fun c => c != '?')
  if sp.1 ∈ uses_params then dropParams p else p

/-- One step of posixpath.basename: a '/' resets the accumulator, any other
character extends it. -/
def bstep (acc : List Char) (c : Char) : List Char := if c = '/' then [] else acc ++ [c]

/-- posixpath.basename on characters: the suffix after the last '/'. -/
def basenameChars (cs : List Char) : List Char := cs.foldl bstep []

/-- DeepinDailyWallpaper._create_filename: os.path.basename(urlparse(uri).path). -/
def create_filename (uri : String) : String := String.mk (basenameChars (urlPathChars uri.data))

/-- posixpath.join for the two-argument call sites of the program: an
absolute second component replaces the first, otherwise a '/' separator is
inserted unless the first component is empty or already ends in '/'. -/
def pyJoin (a b : String) : String :=
  if b.data.head? = some '/' then b
  else if a.data = [] ∨ a.data.getLast? = some '/' then a ++ b
  else a ++ "/" ++ b

/-- First match of a key in an association list, as a Python dict-free file
lookup over the flat cache. -/
def lookupFile : List (String × String) → String → Option String
  | [], _ => none
  | (p, c) :: rest, q => if p = q then some c else lookupFile rest q

/-- DeepinDailyWallpaper._download_image: compute the output path under the
storage directory; if a file already exists there return the path at once;
otherwise GET the URL, raise the download error if the status is not 200,
else stream the body to a fresh file and return the path. -/
def download_image (storage : String) (net : Net) (uri name : String) (s : St) :
    Except Err String × St :=
  let output_file := pyJoin storage name
  match lookupFile s.files output_file with
  | some _ => (Except.ok output_file, s)
  | none =>
    let r := net uri
    let s1 : St := { s with log := s.log ++ [uri] }
    if r.status_code ≠ 200 then
      (Except.error (Err.downloadError r.status_code), s1)
    else
      (Except.ok output_file, { s1 with files := s1.files ++ [(output_file, r.content)] })

/-- Selector results the five adapters read from a parsed document:
bing's select_one of a urlBase tag (its text), natgeo's og:image meta tag
(content attribute) and canonical link tag (href), wiki's
potd anchor image (src), nasa's anchor with href starting "image/" (href),
and epod's anchor of class asset-img-link (href). `none` means the
selector yields no element. -/
structure Doc where
  urlBase : Option String
  ogImageContent : Option String
  canonicalHref : Option String
  potdImgSrc : Option String
  apodHref : Option String
  epodHref : Option String
deriving DecidableEq

/-- The HTML/XML parse capability (BeautifulSoup with lxml), abstracted to
the selector results each adapter reads from the fetched body. -/
abbrev ParseFn := String → Doc

/-- DeepinDailyWallpaper._soupify: GET the URL, raise the fetch error if the
status is not 200, else parse the body into a traversable document. -/
def soupify (net : Net) (parse : ParseFn) (uri : String) (s : St) :
    Except Err Doc × St :=
  let r := net uri
  let s1 : St := { s with log := s.log ++ [uri] }
  if r.status_code ≠ 200 then
    (Except.error (Err.fetchError r.status_code), s1)
  else
    (Except.ok (parse r.content), s1)

/-- Hardcoded source URL of the bing adapter. -/
def bing_url : String := "https://www.bing.com/HPImageArchive.aspx?format=xml&idx=0&n=1&mkt=en-US"

/-- Hardcoded source URL of the natgeo adapter. -/
def natgeo_url : String := "http://www.nationalgeographic.com/photography/photo-of-the-day/"

/-- Hardcoded source URL of the wiki adapter. -/
def wiki_url : String := "https://commons.wikimedia.org/wiki/Main_Page"

/-- Hardcoded source URL of the nasa adapter. -/
def nasa_url : String := "https://apod.nasa.gov/apod/"

/-- Hardcoded source URL of the epod adapter. -/
def epod_url : String := "https://epod.usra.edu/blog/"

/-- DeepinDailyWallpaper._fetch_bing_wallpaper. -/
def fetch_bing_wallpaper (storage : String) (net : Net) (parse : ParseFn) (s : St) :
    Except Err String × St :=
  match soupify net parse bing_url s with
  | (Except.error e, s1) => (Except.error e, s1)
  | (Except.ok soup, s1) =>
    match soup.urlBase with
    | none => (Except.error Err.imageNotFound, s1)
    | some t =>
      download_image storage net ("https://www.bing.com/" ++ t ++ "_1920x1080.jpg")
        (create_filename ("https://www.bing.com/" ++ t ++ ".jpg")) s1

/-- Python str.rstrip with argument "/": remove all trailing '/'. -/
def rstripSlashChars (cs : List Char) : List Char := (cs.reverse.dropWhile (fun c => c == '/')).reverse

/-- DeepinDailyWallpaper._fetch_natgeo_wallpaper. A missing og:image meta
tag raises the image-not-found error; a missing canonical link makes the
Python code subscript None, a TypeError. -/
def fetch_natgeo_wallpaper (storage : String) (net : Net) (parse : ParseFn) (s : St) :
    Except Err String × St :=
  match soupify net parse natgeo_url s with
  | (Except.error e, s1) => (Except.error e, s1)
  | (Except.ok soup, s1) =>
    match soup.ogImageContent with
    | none => (Except.error Err.imageNotFound, s1)
    | some uri =>
      match soup.canonicalHref with
      | none => (Except.error Err.typeError, s1)
      | some href =>
        download_image storage net uri
          (create_filename (String.mk (rstripSlashChars (urlPathChars href.data)) ++ ".jpg")) s1

/-- Python str.replace of every occurrence of "thumb/" by the empty string,
scanning left to right. -/
def removeThumb : List Char → List Char
  | 't' :: 'h' :: 'u' :: 'm' :: 'b' :: '/' :: cs => removeThumb cs
  | c :: cs => c :: removeThumb cs
  | [] => []

/-- Python uri[0:uri.rfind('/')]. When rfind finds no '/', it returns -1 and
the slice uri[0:-1] drops the last character. -/
def truncAtLastSlash (cs : List Char) : List Char :=
  match rfindSlash cs with
  | some i => cs.take i
  | none => cs.dropLast

/-- DeepinDailyWallpaper._fetch_wiki_wallpaper. -/
def fetch_wiki_wallpaper (storage : String) (net : Net) (parse : ParseFn) (s : St) :
    Except Err String × St :=
  match soupify net parse wiki_url s with
  | (Except.error e, s1) => (Except.error e, s1)
  | (Except.ok soup, s1) =>
    match soup.potdImgSrc with
    | none => (Except.error Err.imageNotFound, s1)
    | some src =>
      let uri := String.mk (truncAtLastSlash (removeThumb src.data))
      download_image storage net uri (create_filename uri) s1

/-- DeepinDailyWallpaper._fetch_nasa_wallpaper. -/
def fetch_nasa_wallpaper (storage : String) (net : Net) (parse : ParseFn) (s : St) :
    Except Err String × St :=
  match soupify net parse nasa_url s with
  | (Except.error e, s1) => (Except.error e, s1)
  | (Except.ok soup, s1) =>
    match soup.apodHref with
    | none => (Except.error Err.imageNotFound, s1)
    | some href =>
      let uri := "https://apod.nasa.gov/apod/" ++ href
      download_image storage net uri (create_filename uri) s1

/-- DeepinDailyWallpaper._fetch_epod_wallpaper. -/
def fetch_epod_wallpaper (storage : String) (net : Net) (parse : ParseFn) (s : St) :
    Except Err String × St :=
  match soupify net parse epod_url s with
  | (Except.error e, s1) => (Except.error e, s1)
  | (Except.ok soup, s1) =>
    match soup.epodHref with
    | none => (Except.error Err.imageNotFound, s1)
    | some href =>
      download_image storage net href (create_filename (href ++ ".jpg")) s1

/-- DeepinDailyWallpaper._set_wallpaper, abstracted to the ordered list of
(key, value) pairs handed to the appearance service's Set operation on the
interface com.deepin.daemon.Appearance (via _dbus_set). -/
def set_wallpaper (change : String) (p : String) : List (String × String) :=
  (if change = "wallpaper" ∨ change = "all" then [("background", p)] else []) ++
  (if change = "greeter" ∨ change = "all" then [("greeterbackground", p)] else [])

/-- Names of the routines defined on class DeepinDailyWallpaper, in the
sorted order inspect.getmembers returns them. Routines inherited from
object are all dunder names (starting with two underscores) and none of
them can match the fetch-method pattern, so they are omitted here. -/
def classMethods : List String :=
  ["__init__", "_create_filename", "_dbus_set", "_download_image",
   "_fetch_bing_wallpaper", "_fetch_epod_wallpaper", "_fetch_nasa_wallpaper",
   "_fetch_natgeo_wallpaper", "_fetch_wallpaper", "_fetch_wiki_wallpaper",
   "_set_wallpaper", "_soupify", "clean_up", "get_sources", "run"]

/-- Full anchored match of a method name against the registry's regular
expression (the pattern "_fetch_" then one or more word characters captured
as a group then "_wallpaper", anchored at both ends), returning the captured
group. With both anchors and fixed-length affixes the decomposition is
unique: the group is the middle of the name, and the length bound 18 makes
the middle nonempty and keeps the affixes disjoint. -/
def fetchStem (name : String) : Option String :=
  let cs := name.data
  if 18 ≤ cs.length ∧ cs.take 7 = "_fetch_".data ∧
      cs.drop (cs.length - 10) = "_wallpaper".data ∧
      ((cs.drop 7).take (cs.length - 17)).all wordChar = true
  then some (String.mk ((cs.drop 7).take (cs.length - 17)))
  else none

/-- DeepinDailyWallpaper.get_sources: the captured group of every class
method name matching the fetch-method pattern. -/
def get_sources : List String := classMethods.filterMap fetchStem

/-- Accepted values of the CLI flag --source: the registry plus "any". -/
def source_choices : List String := get_sources ++ ["any"]

/-- One cached file as the cleanup sweep sees it: name and modification
time in seconds since the epoch. -/
structure FileEnt where
  name : String
  mtime : Nat
deriving DecidableEq

/-- The storage directory as the cleanup sweep sees it: its regular files,
its own modification time, and whether it still exists. -/
structure DirSt where
  files : List FileEnt
  dirMtime : Nat
  dirExists : Bool
deriving DecidableEq

/-- GNU find's age test -mtime +n at time now: the age in whole 24-hour
periods, fractional part discarded, is strictly greater than n. -/
def mtimeMatches (now : Nat) (n : Int) (mtime : Nat) : Bool :=
  decide ((((now - mtime) / 86400 : Nat) : Int) > n)

/-- DeepinDailyWallpaper.clean_up: a no-op when the configured age is not
positive; otherwise the shell command find storage -mtime +clean -delete.
Because -delete implies depth-first order, the files are filtered first;
the starting directory itself is then removed when it matches the age test
and no file is left inside it (rmdir of a non-empty directory fails). -/
def clean_up (clean : Int) (now : Nat) (d : DirSt) : DirSt :=
  if clean ≤ 0 then d
  else
    let kept := d.files.filter (fun f => !(mtimeMatches now clean f.mtime))
    { files := kept
      dirMtime := d.dirMtime
      dirExists := d.dirExists && !(kept.isEmpty && mtimeMatches now clean d.dirMtime) }

/-- Split a character list on '/', keeping empty segments, as str.split
does. -/
def splitSlash : List Char → List (List Char)
  | [] => [[]]
  | c :: cs =>
    let r := splitSlash cs
    if c = '/' then [] :: r
    else
      match r with
      | [] => [[c]]
      | h :: t => (c :: h) :: t

/-- Rejoin path segments with '/'. -/
def joinSlash : List (List Char) → List Char
  | [] => []
  | [x] => x
  | x :: xs => x ++ '/' :: joinSlash xs

/-- Proper ancestors of a path: every nonempty strict prefix of the path at
a segment boundary, as pathlib's mkdir with parents=True creates them. -/
def ancestorsChars (cs : List Char) : List (List Char) :=
  let segs := splitSlash cs
  ((List.range (segs.length - 1)).map (fun i => joinSlash (segs.take (i + 1)))).filter
    (fun d => !(d.isEmpty))

/-- pathlib.Path(p).mkdir(parents=True, exist_ok=True) on the directory
set: add the missing ancestors and the directory itself. -/
def mkdir_parents (p : String) (dirs : List String) : List String :=
  let anc := (ancestorsChars p.data).map String.mk
  dirs ++ (anc.filter (fun d => decide (d ∉ dirs))) ++ (if p ∈ dirs then [] else [p])

/-- DeepinDailyWallpaper.__init__, restricted to its one state effect:
making sure the storage path exists (parents included). -/
def initFetcher (storage : String) (s : St) : St :=
  { s with dirs := mkdir_parents storage s.dirs }

/-! Helper lemmas shared by the claim theorems. -/

theorem foldl_bstep_no_slash (cs : List Char) :
    ∀ acc : List Char, '/' ∉ acc → '/' ∉ cs.foldl bstep acc := by
  induction cs with
  | nil => intro acc h; simpa using h
  | cons c cs ih =>
    intro acc h
    simp only [List.foldl_cons]
    apply ih
    by_cases hc : c = '/'
    · simp [bstep, hc]
    · intro hmem
      rcases List.mem_append.mp ((by simpa [bstep, hc] using hmem) : '/' ∈ acc ++ [c]) with h1 | h1
      · exact h h1
      · exact hc (List.mem_singleton.mp h1).symm

theorem basenameChars_no_slash (cs : List Char) : '/' ∉ basenameChars cs :=
  foldl_bstep_no_slash cs [] (by simp)

theorem create_filename_no_slash (uri : String) : '/' ∉ (create_filename uri).data := by
  simpa [create_filename] using basenameChars_no_slash (urlPathChars uri.data)

theorem foldl_bstep_last_slash (cs : List Char) :
    ∀ acc : List Char, cs.getLast? = some '/' → cs.foldl bstep acc = [] := by
  induction cs with
  | nil => intro acc h; simp at h
  | cons c cs ih =>
    intro acc h
    cases cs with
    | nil =>
      have hc : c = '/' := by simpa using h
      simp [bstep, hc]
    | cons c2 cs2 =>
      rw [List.getLast?_cons_cons] at h
      simpa using ih (bstep acc c) h

theorem pyJoin_cases (a b : String) (hb : '/' ∉ b.data) :
    pyJoin a b = a ++ b ∨ pyJoin a b = a ++ ("/" ++ b) := by
  have hhead : ¬ b.data.head? = some '/' := by
    intro h
    apply hb
    cases hl : b.data with
    | nil => rw [hl] at h; simp at h
    | cons x xs =>
      rw [hl] at h
      have : x = '/' := by simpa using h
      simp [this]
  rw [pyJoin, if_neg hhead]
  by_cases h2 : a.data = [] ∨ a.data.getLast? = some '/'
  · rw [if_pos h2]; left; rfl
  · rw [if_neg h2]; right; exact String.append_assoc a "/" b

theorem pyJoin_in_storage (storage fname : String) :
    ∃ rest : String, pyJoin storage (create_filename fname) = storage ++ rest := by
  rcases pyJoin_cases storage (create_filename fname) (create_filename_no_slash fname) with h | h
  · exact ⟨create_filename fname, h⟩
  · exact ⟨"/" ++ create_filename fname, h⟩

/-! Claim theorems. -/

/-- C1: when a file already exists at the computed path under the storage
directory, _download_image performs zero network requests, leaves the state
(files, directories, request log) entirely unchanged, and returns the same
local path a first call would; a second consecutive call with the same
arguments again changes nothing and returns the same path. -/
theorem c1_download_cached_idempotent (storage : String) (net : Net) (uri name : String)
    (s : St) (h : (lookupFile s.files (pyJoin storage name)).isSome = true) :
    download_image storage net uri name s = (Except.ok (pyJoin storage name), s) ∧
    download_image storage net uri name (download_image storage net uri name s).2 =
      (Except.ok (pyJoin storage name), s) := by
  obtain ⟨c, hc⟩ := Option.isSome_iff_exists.mp h
  have h1 : download_image storage net uri name s = (Except.ok (pyJoin storage name), s) := by
    simp [download_image, hc]
  refine ⟨h1, ?_⟩
  rw [h1]
  exact h1

/-- Witness for C1 at a concrete cached state. -/
theorem c1_download_cached_idempotent_witness :
    download_image "/st" (fun _ => ⟨200, "NEW"⟩) "http://h/i.jpg" "i.jpg"
        ⟨[("/st/i.jpg", "OLD")], ["/st"], []⟩ =
      (Except.ok "/st/i.jpg", ⟨[("/st/i.jpg", "OLD")], ["/st"], []⟩) := by
  have h := c1_download_cached_idempotent "/st" (fun _ => ⟨200, "NEW"⟩) "http://h/i.jpg" "i.jpg"
    ⟨[("/st/i.jpg", "OLD")], ["/st"], []⟩ (by decide)
  have hp : pyJoin "/st" "i.jpg" = "/st/i.jpg" := rfl
  simpa [hp] using h.1

/-- C2: the registry get_sources returns exactly the names bing, natgeo,
wiki, nasa and epod; "any" is accepted by the CLI choices for --source but
is never an element of the registry's list. -/
theorem c2_registry_sources :
    (∀ s : String, s ∈ get_sources ↔
      s = "bing" ∨ s = "natgeo" ∨ s = "wiki" ∨ s = "nasa" ∨ s = "epod") ∧
    "any" ∉ get_sources ∧ "any" ∈ source_choices := by
  have h : get_sources = ["bing", "epod", "nasa", "natgeo", "wiki"] := by decide
  refine ⟨?_, ?_, ?_⟩
  · intro s
    rw [h]
    simp only [List.mem_cons, List.mem_singleton, List.not_mem_nil, or_false]
    tauto
  · rw [h]; decide
  · show "any" ∈ get_sources ++ ["any"]
    simp

/-- Witness for C2 at a concrete source name. -/
theorem c2_registry_sources_witness : "bing" ∈ get_sources :=
  (c2_registry_sources.1 "bing").mpr (Or.inl rfl)

/-- C3 counterexample: the claim "clean_up with clean = N removes exactly
those regular files whose modification time is strictly older than N days
and leaves the directory itself untouched" fails on the code. First input:
at time 200000 a file of mtime 100000 is strictly older than 1 day
(age 100000 s > 86400 s), yet clean_up 1 keeps it, because find's
-mtime +1 only matches ages of at least two whole days. Second input: an
empty storage directory whose own mtime is old is deleted by
find -delete (no -type f filter), so the directory does not stay. -/
theorem c3_cleanup_counterexample :
    (1 * 86400 < (200000 - 100000 : Nat) ∧
      (clean_up 1 200000 ⟨[⟨"a", 100000⟩], 200000, true⟩).files = [⟨"a", 100000⟩]) ∧
    (clean_up 1 1000000 ⟨[], 0, true⟩).dirExists = false := by decide

/-- C3 amended: for every N > 0, cleanup keeps exactly the files whose age
in whole 24-hour periods (fractional part discarded, GNU find -mtime) is at
most N — so a file is removed exactly when it is at least N+1 whole days
old, not when it is merely strictly older than N days — and the storage
directory itself is removed exactly when no file is left in it and its own
whole-day age exceeds N. -/
theorem c3_cleanup_amended (n : Int) (now : Nat) (d : DirSt) (hn : 0 < n) :
    (∀ f : FileEnt, f ∈ (clean_up n now d).files ↔
      f ∈ d.files ∧ (((now - f.mtime) / 86400 : Nat) : Int) ≤ n) ∧
    (d.dirExists = true →
      ((clean_up n now d).dirExists = false ↔
        ((clean_up n now d).files = [] ∧ n < (((now - d.dirMtime) / 86400 : Nat) : Int)))) := by
  have hn2 : ¬ n ≤ 0 := not_le.mpr hn
  constructor
  · intro f
    simp [clean_up, hn2, List.mem_filter, mtimeMatches, not_lt]
  · intro hd
    simp [clean_up, hn2, hd, List.isEmpty_iff, mtimeMatches]

/-- Witness for C3's amended theorem at a concrete input: with N = 1 at
time 200000, a file of mtime 100000 (one whole day old) is kept. -/
theorem c3_cleanup_amended_witness :
    (⟨"a", 100000⟩ : FileEnt) ∈ (clean_up 1 200000 ⟨[⟨"a", 100000⟩], 200000, true⟩).files :=
  ((c3_cleanup_amended 1 200000 ⟨[⟨"a", 100000⟩], 200000, true⟩ (by decide)).1
    ⟨"a", 100000⟩).mpr ⟨by decide, by decide⟩

/-- C4: when no file exists at the computed path and the HTTP GET returns a
non-200 status, _download_image raises the download error carrying that
status and creates no file: the resulting files and directories are exactly
those before the call (only the request log records the one GET). -/
theorem c4_download_non200_no_mutation (storage : String) (net : Net) (uri name : String)
    (s : St) (h0 : lookupFile s.files (pyJoin storage name) = none)
    (h1 : (net uri).status_code ≠ 200) :
    download_image storage net uri name s =
      (Except.error (Err.downloadError (net uri).status_code),
        { s with log := s.log ++ [uri] }) ∧
    (download_image storage net uri name s).2.files = s.files ∧
    (download_image storage net uri name s).2.dirs = s.dirs := by
  have h : download_image storage net uri name s =
      (Except.error (Err.downloadError (net uri).status_code),
        { s with log := s.log ++ [uri] }) := by
    simp [download_image, h0, h1]
  exact ⟨h, by rw [h], by rw [h]⟩

/-- Witness for C4 at a concrete input with a 404 response. -/
theorem c4_download_non200_no_mutation_witness :
    download_image "/st" (fun _ => ⟨404, ""⟩) "http://h/i.jpg" "i.jpg" ⟨[], ["/st"], []⟩ =
      (Except.error (Err.downloadError 404), ⟨[], ["/st"], ["http://h/i.jpg"]⟩) := by
  have h := c4_download_non200_no_mutation "/st" (fun _ => ⟨404, ""⟩) "http://h/i.jpg" "i.jpg"
    ⟨[], ["/st"], []⟩ (by decide) (by decide)
  simpa using h.1

/-- C5: _set_wallpaper with selector "wallpaper" performs exactly one Set
call, with key "background"; with "greeter" exactly one, with key
"greeterbackground"; with "all" exactly two, "background" first and
"greeterbackground" second; the value passed is always the literal local
file path. -/
theorem c5_set_wallpaper_targets (p : String) :
    set_wallpaper "wallpaper" p = [("background", p)] ∧
    set_wallpaper "greeter" p = [("greeterbackground", p)] ∧
    set_wallpaper "all" p = [("background", p), ("greeterbackground", p)] :=
  ⟨rfl, rfl, rfl⟩

/-- C6: construction creates the storage directory, its missing parents
included, and leaves the cached files alone; and every path _download_image
writes to lies inside the storage directory: the written path extends the
storage path, because the derived filename never contains a '/'. -/
theorem c6_storage_dir_invariant :
    (∀ (storage : String) (s : St),
      storage ∈ (initFetcher storage s).dirs ∧
      (∀ d ∈ (ancestorsChars storage.data).map String.mk, d ∈ (initFetcher storage s).dirs) ∧
      (initFetcher storage s).files = s.files) ∧
    (∀ (storage : String) (net : Net) (uri fname : String) (s : St),
      ∃ rest : String,
        pyJoin storage (create_filename fname) = storage ++ rest ∧
        ((download_image storage net uri (create_filename fname) s).2.files = s.files ∨
          (download_image storage net uri (create_filename fname) s).2.files =
            s.files ++ [(storage ++ rest, (net uri).content)])) := by
  constructor
  · intro storage s
    refine ⟨?_, ?_, rfl⟩
    · by_cases h : storage ∈ s.dirs <;> simp [initFetcher, mkdir_parents, h]
    · intro d hd
      by_cases h : d ∈ s.dirs <;> simp [initFetcher, mkdir_parents, h, hd]
  · intro storage net uri fname s
    obtain ⟨rest, hrest⟩ := pyJoin_in_storage storage fname
    refine ⟨rest, hrest, ?_⟩
    rw [download_image]
    cases hl : lookupFile s.files (pyJoin storage (create_filename fname)) with
    | some c => left; rfl
    | none =>
      by_cases hs : (net uri).status_code ≠ 200
      · left; simp [hs]
      · right; simp [hs, hrest]

/-- Witness for C6: the parent "/a" is created alongside "/a/b". -/
theorem c6_storage_dir_invariant_witness :
    "/a" ∈ (initFetcher "/a/b" ⟨[], [], []⟩).dirs :=
  (c6_storage_dir_invariant.1 "/a/b" ⟨[], [], []⟩).2.1 "/a" (by decide)

/-- C7: _soupify performs exactly one HTTP GET of the given URL, raises the
fetch error exactly when the response status is not 200 (carrying that
status), and on a 200 response returns the body parsed into a document. -/
theorem c7_soupify_fetch (net : Net) (parse : ParseFn) (uri : String) (s : St) :
    (soupify net parse uri s).2 = { s with log := s.log ++ [uri] } ∧
    ((∃ e, (soupify net parse uri s).1 = Except.error e) ↔ (net uri).status_code ≠ 200) ∧
    ((net uri).status_code ≠ 200 →
      (soupify net parse uri s).1 = Except.error (Err.fetchError (net uri).status_code)) ∧
    ((net uri).status_code = 200 →
      (soupify net parse uri s).1 = Except.ok (parse (net uri).content)) := by
  by_cases h : (net uri).status_code = 200 <;>
    simp [soupify, h]

/-- Witness for C7 at a concrete 200 response. -/
theorem c7_soupify_fetch_witness :
    (soupify (fun _ => ⟨200, "B"⟩) (fun _ => ⟨none, none, none, none, none, none⟩)
        "http://h/" ⟨[], [], []⟩).1 =
      Except.ok ⟨none, none, none, none, none, none⟩ :=
  (c7_soupify_fetch (fun _ => ⟨200, "B"⟩) (fun _ => ⟨none, none, none, none, none, none⟩)
    "http://h/" ⟨[], [], []⟩).2.2.2 rfl

/-- C8 amended: every source adapter whose selector yields no element in
the fetched document fails with the image-not-found error without
attempting any download — the resulting state carries only the one
document GET, the cache untouched — and whenever the selector yields an
element, the adapter hands the derived URL and filename to the shared
download step, with the one exception the code forces: the natgeo adapter
reads two tags, and when its og:image selector yields an element but the
canonical link is absent it raises the TypeError from subscripting None —
neither the image-not-found error nor a download. -/
theorem c8_adapters_selector (storage : String) (net : Net) (parse : ParseFn) (s : St) :
    ((net bing_url).status_code = 200 →
      (((parse (net bing_url).content).urlBase = none →
        fetch_bing_wallpaper storage net parse s =
          (Except.error Err.imageNotFound, { s with log := s.log ++ [bing_url] })) ∧
      (∀ t, (parse (net bing_url).content).urlBase = some t →
        fetch_bing_wallpaper storage net parse s =
          download_image storage net ("https://www.bing.com/" ++ t ++ "_1920x1080.jpg")
            (create_filename ("https://www.bing.com/" ++ t ++ ".jpg"))
            { s with log := s.log ++ [bing_url] }))) ∧
    ((net natgeo_url).status_code = 200 →
      (((parse (net natgeo_url).content).ogImageContent = none →
        fetch_natgeo_wallpaper storage net parse s =
          (Except.error Err.imageNotFound, { s with log := s.log ++ [natgeo_url] })) ∧
      (∀ u, (parse (net natgeo_url).content).ogImageContent = some u →
        (parse (net natgeo_url).content).canonicalHref = none →
        fetch_natgeo_wallpaper storage net parse s =
          (Except.error Err.typeError, { s with log := s.log ++ [natgeo_url] })) ∧
      (∀ u v, (parse (net natgeo_url).content).ogImageContent = some u →
        (parse (net natgeo_url).content).canonicalHref = some v →
        fetch_natgeo_wallpaper storage net parse s =
          download_image storage net u
            (create_filename (String.mk (rstripSlashChars (urlPathChars v.data)) ++ ".jpg"))
            { s with log := s.log ++ [natgeo_url] }))) ∧
    ((net wiki_url).status_code = 200 →
      (((parse (net wiki_url).content).potdImgSrc = none →
        fetch_wiki_wallpaper storage net parse s =
          (Except.error Err.imageNotFound, { s with log := s.log ++ [wiki_url] })) ∧
      (∀ src, (parse (net wiki_url).content).potdImgSrc = some src →
        fetch_wiki_wallpaper storage net parse s =
          download_image storage net (String.mk (truncAtLastSlash (removeThumb src.data)))
            (create_filename (String.mk (truncAtLastSlash (removeThumb src.data))))
            { s with log := s.log ++ [wiki_url] }))) ∧
    ((net nasa_url).status_code = 200 →
      (((parse (net nasa_url).content).apodHref = none →
        fetch_nasa_wallpaper storage net parse s =
          (Except.error Err.imageNotFound, { s with log := s.log ++ [nasa_url] })) ∧
      (∀ href, (parse (net nasa_url).content).apodHref = some href →
        fetch_nasa_wallpaper storage net parse s =
          download_image storage net ("https://apod.nasa.gov/apod/" ++ href)
            (create_filename ("https://apod.nasa.gov/apod/" ++ href))
            { s with log := s.log ++ [nasa_url] }))) ∧
    ((net epod_url).status_code = 200 →
      (((parse (net epod_url).content).epodHref = none →
        fetch_epod_wallpaper storage net parse s =
          (Except.error Err.imageNotFound, { s with log := s.log ++ [epod_url] })) ∧
      (∀ href, (parse (net epod_url).content).epodHref = some href →
        fetch_epod_wallpaper storage net parse s =
          download_image storage net href (create_filename (href ++ ".jpg"))
            { s with log := s.log ++ [epod_url] }))) := by
  refine ⟨?_, ?_, ?_, ?_, ?_⟩
  · intro h200
    constructor
    · intro hsel; simp [fetch_bing_wallpaper, soupify, h200, hsel]
    · intro t hsel; simp [fetch_bing_wallpaper, soupify, h200, hsel]
  · intro h200
    refine ⟨?_, ?_, ?_⟩
    · intro hsel; simp [fetch_natgeo_wallpaper, soupify, h200, hsel]
    · intro u hu hv; simp [fetch_natgeo_wallpaper, soupify, h200, hu, hv]
    · intro u v hu hv; simp [fetch_natgeo_wallpaper, soupify, h200, hu, hv]
  · intro h200
    constructor
    · intro hsel; simp [fetch_wiki_wallpaper, soupify, h200, hsel]
    · intro src hsel; simp [fetch_wiki_wallpaper, soupify, h200, hsel]
  · intro h200
    constructor
    · intro hsel; simp [fetch_nasa_wallpaper, soupify, h200, hsel]
    · intro href hsel; simp [fetch_nasa_wallpaper, soupify, h200, hsel]
  · intro h200
    constructor
    · intro hsel; simp [fetch_epod_wallpaper, soupify, h200, hsel]
    · intro href hsel; simp [fetch_epod_wallpaper, soupify, h200, hsel]

/-- C8 counterexample: the claim as stated fails on the natgeo adapter. At
this concrete input the og:image selector yields an element but the
canonical link tag is absent, so ddw.py line 77 subscripts None: the run
raises a TypeError — not the documented image-not-found error — and never
reaches the download step: the image URL is never requested (the log holds
only the document GET) and no file is written. -/
theorem c8_adapters_counterexample :
    fetch_natgeo_wallpaper "/st" (fun _ => ⟨200, "B"⟩)
        (fun _ => ⟨none, some "http://img/x.jpg", none, none, none, none⟩) ⟨[], [], []⟩ =
      (Except.error Err.typeError, ⟨[], [], [natgeo_url]⟩) ∧
    Err.typeError ≠ Err.imageNotFound :=
  ⟨rfl, by decide⟩

/-- Witness for C8: with a 200 document response whose parse yields no
selector match, the bing adapter reports image-not-found and performs no
download. -/
theorem c8_adapters_selector_witness :
    fetch_bing_wallpaper "/st" (fun _ => ⟨200, "B"⟩)
        (fun _ => ⟨none, none, none, none, none, none⟩) ⟨[], [], []⟩ =
      (Except.error Err.imageNotFound, ⟨[], [], [bing_url]⟩) := by
  have h := (c8_adapters_selector "/st" (fun _ => ⟨200, "B"⟩)
    (fun _ => ⟨none, none, none, none, none, none⟩) ⟨[], [], []⟩).1 rfl
  simpa using h.1 rfl

/-- C9: for the bing adapter, a document whose first base-image element has
text t yields the download URL composed of the Bing base URL, t and the
fixed suffix "_1920x1080.jpg", and the local filename is the basename of
the path component of the same base URL with t and a ".jpg" extension. -/
theorem c9_bing_golden (storage : String) (net : Net) (parse : ParseFn) (s : St) (t : String)
    (h200 : (net bing_url).status_code = 200)
    (ht : (parse (net bing_url).content).urlBase = some t) :
    fetch_bing_wallpaper storage net parse s =
      download_image storage net ("https://www.bing.com/" ++ t ++ "_1920x1080.jpg")
        (String.mk (basenameChars (urlPathChars ("https://www.bing.com/" ++ t ++ ".jpg").data)))
        { s with log := s.log ++ [bing_url] } := by
  simp [fetch_bing_wallpaper, soupify, h200, ht, create_filename]

/-- Witness for C9 at a concrete document with base text "az/hidef". -/
theorem c9_bing_golden_witness :
    fetch_bing_wallpaper "/st" (fun _ => ⟨200, "B"⟩)
        (fun _ => ⟨some "az/hidef", none, none, none, none, none⟩) ⟨[], [], []⟩ =
      download_image "/st" (fun _ => ⟨200, "B"⟩) "https://www.bing.com/az/hidef_1920x1080.jpg"
        "hidef.jpg" ⟨[], [], [bing_url]⟩ := by
  have h := c9_bing_golden "/st" (fun _ => ⟨200, "B"⟩)
    (fun _ => ⟨some "az/hidef", none, none, none, none, none⟩) ⟨[], [], []⟩ "az/hidef" rfl rfl
  have hn : String.mk (basenameChars
      (urlPathChars ("https://www.bing.com/" ++ "az/hidef" ++ ".jpg").data)) = "hidef.jpg" := by
    decide
  rw [hn] at h
  simpa using h

/-- C10: the filename derivation _create_filename depends only on the path
component of the URI — it returns the basename of the parsed path, so two
URIs with equal parsed paths (whatever their scheme, authority, query or
fragment) map to the same cached filename — and a URI whose parsed path
ends in '/' derives the empty filename. -/
theorem c10_create_filename_path_only :
    (∀ u : String, create_filename u = String.mk (basenameChars (urlPathChars u.data))) ∧
    (∀ u v : String, urlPathChars u.data = urlPathChars v.data →
      create_filename u = create_filename v) ∧
    (∀ u : String, (urlPathChars u.data).getLast? = some '/' → create_filename u = "") := by
  refine ⟨fun u => rfl, fun u v h => by simp [create_filename, h], fun u h => ?_⟩
  rw [create_filename, basenameChars, foldl_bstep_last_slash _ [] h]

/-- Witness for C10: query and fragment do not reach the filename, and a
trailing slash yields the empty name. -/
theorem c10_create_filename_path_only_witness :
    create_filename "https://a.org/dir/img.jpg?w=1920" = create_filename "http://b.net/dir/img.jpg#frag" ∧
    create_filename "http://x/a/" = "" :=
  ⟨c10_create_filename_path_only.2.1 "https://a.org/dir/img.jpg?w=1920"
      "http://b.net/dir/img.jpg#frag" (by decide),
    c10_create_filename_path_only.2.2 "http://x/a/" (by decide)⟩
